import Mathlib

/-!
Shallow embedding of src/backend/run.py (a Flask service managing
stable-diffusion model artifacts) and proofs about its contracts.

Modelling choices, each noted again at the definition it concerns:
a filesystem is an association list from path to file content (a list of
byte-chunk values); the network is a function from url to a request outcome
whose stream may fail after delivering some chunks; the inference engine is
a function from a local path to either a handle (a number) or a rejection;
the three module-level globals of run.py (pipe, current_model,
current_model_path) form a record threaded through the handlers.
-/

namespace DesignMesh

/-- A filesystem: an association list from absolute path to file content
(content is the list of written chunks). A later write for the same path
shadows the earlier entry, since lookup returns the first match. -/
structure FS where
  files : List (String × List Nat)
deriving DecidableEq

/-- Models os.path.exists. -/
def FS.existsPath (fs : FS) (p : String) : Bool :=
  (fs.files.lookup p).isSome

/-- Models open(p, wb) followed by writing the content and closing. -/
def FS.write (fs : FS) (p : String) (c : List Nat) : FS :=
  ⟨(p, c) :: fs.files⟩

/-- Models reading back the content of a file, none if absent. -/
def FS.read (fs : FS) (p : String) : Option (List Nat) :=
  fs.files.lookup p

/-- Models os.path.join(dir, file) for a relative second component and a
directory not ending in a separator, the only form run.py uses. -/
def pathJoin (dir file : String) : String :=
  dir ++ "/" ++ file

/-- Models os.path.basename: the part after the last path separator. -/
def basename (p : String) : String :=
  (p.splitOn "/").getLastD p

/-- The file-name predicate of the glob pattern used by list_models in
run.py line 30, glob.glob(f"\x7bMODEL_DIR\x7d/*.safetensors"): a name matches
when it ends in ".safetensors" and, per glob semantics for a pattern whose
component does not itself start with a dot, is not a hidden dotfile. -/
def globMatchesSafetensors (name : String) : Bool :=
  ".safetensors".data.isSuffixOf name.data && !(".".data.isPrefixOf name.data)

/-- Embeds list_models (run.py lines 28-30): the basenames of the glob
matches over the model directory, in the order the directory listing
returns them (glob.glob does not sort its results). dirEntries is the
listing of MODEL_DIR in that order. -/
def list_models (dirEntries : List String) : List String :=
  dirEntries.filter globMatchesSafetensors

/-- One step of the download stream: a delivered chunk, or a network
failure raised while iterating r.iter_content. -/
abbrev StreamStep := Except Unit Nat

/-- Writing the streamed chunks into the open file: returns the content on
disk when the iteration stops (the prefix delivered so far) and whether the
stream completed without raising. -/
def streamToFile : List StreamStep → List Nat → List Nat × Bool
  | [], acc => (acc, true)
  | .ok c :: rest, acc => streamToFile rest (acc ++ [c])
  | .error _ :: _, acc => (acc, false)

instance {ε α : Type} [DecidableEq ε] [DecidableEq α] :
    DecidableEq (Except ε α) := fun a b =>
  match a, b with
  | .ok x, .ok y =>
    if h : x = y then .isTrue (by rw [h]) else .isFalse (by simpa using h)
  | .error x, .error y =>
    if h : x = y then .isTrue (by rw [h]) else .isFalse (by simpa using h)
  | .ok _, .error _ => .isFalse (by simp)
  | .error _, .ok _ => .isFalse (by simp)

/-- Outcome of download_model: the filesystem afterwards, the returned
path or the propagated exception, and whether a network request was made. -/
structure DownloadOutcome where
  fs : FS
  result : Except Unit String
  networkUsed : Bool
deriving DecidableEq

/-- The network: url to either a request-level failure (requests.get
itself raises, before any file is opened) or a stream of chunk steps. -/
abbrev Network := String → Except Unit (List StreamStep)

/-- Embeds download_model (run.py lines 32-43). If the target path exists
the function returns it at once with no request. Otherwise it opens the
target path itself for writing (no temporary name) and streams chunks into
it; a mid-stream failure leaves the prefix written so far at the target
path, because the file was opened at its final name before streaming. -/
def download_model (network : Network) (url filename : String)
    (model_dir : Option String) (MODEL_DIR : String) (fs : FS) :
    DownloadOutcome :=
  let dir := model_dir.getD MODEL_DIR
  let local_path := pathJoin dir filename
  if fs.existsPath local_path then
    ⟨fs, .ok local_path, false⟩
  else
    match network url with
    | .error _ => ⟨fs, .error (), true⟩
    | .ok chunks =>
      let st := streamToFile chunks []
      ⟨fs.write local_path st.1, if st.2 then .ok local_path else .error (), true⟩

/-- The three module-level globals of run.py (lines 25-27): pipe (the
inference-engine handle, None until a load succeeds), current_model and
current_model_path. A handle is modelled as a number identifying the
constructed pipeline object. -/
structure ServerState where
  pipe : Option Nat
  current_model : Option String
  current_model_path : Option String
deriving DecidableEq

/-- The Python exceptions run.py can raise around model loading:
FileNotFoundError with its message (run.py lines 52, 58), whatever the
engine constructor raises (opaque here), and TypeError from applying a
path function to None. -/
inductive PyExn
  | fileNotFound (msg : String)
  | engineError
  | typeError
deriving DecidableEq

/-- The inference engine constructor,
StableDiffusionPipeline.from_single_file(path, ...).to("cuda"): from a
local path it either yields a handle or raises (rejection of the
artifact, unsupported format, resource exhaustion). -/
abbrev Engine := String → Except Unit Nat

/-- Embeds load_model (run.py lines 45-66) as a state transformer on the
globals: returns the globals afterwards and the raised exception, if any.
Resolution: a non-empty model_path is used directly after an existence
check (Python truthiness: if model_path, so an empty string falls through
to the directory branch); otherwise MODEL_DIR/model_name is checked. The
three globals are assigned only after the engine constructor returns, so
on any exception they keep their prior values. -/
def load_model (engine : Engine) (MODEL_DIR : String) (fs : FS)
    (model_name : String) (model_path : Option String) (st : ServerState) :
    ServerState × Option PyExn :=
  let fromDir : Except PyExn String :=
    let full := pathJoin MODEL_DIR model_name
    if fs.existsPath full then .ok full
    else .error (.fileNotFound
      ("Model " ++ model_name ++ " not found in " ++ MODEL_DIR ++ "."))
  let resolved : Except PyExn String :=
    match model_path with
    | some p =>
      if p == "" then fromDir
      else if fs.existsPath p then .ok p
      else .error (.fileNotFound ("Model path " ++ p ++ " not found."))
    | none => fromDir
  match resolved with
  | .error e => (st, some e)
  | .ok full =>
    match engine full with
    | .error _ => (st, some .engineError)
    | .ok h => (⟨some h, some model_name, some full⟩, none)

/-- Response of the /select endpoint: 200 with the loaded model name, or
400 with the JSON body listing error: str(e). -/
inductive SelectResp
  | loaded (model : String)
  | err (e : PyExn)
deriving DecidableEq

/-- Embeds the select handler (run.py lines 119-128). A request body
without a model field gives model = None; load_model then applies
os.path.join to None, raising TypeError, which the except clause turns
into the 400 error response like any other exception. -/
def select (engine : Engine) (MODEL_DIR : String) (fs : FS)
    (st : ServerState) (model : Option String) : ServerState × SelectResp :=
  match model with
  | none => (st, .err .typeError)
  | some name =>
    match load_model engine MODEL_DIR fs name none st with
    | (st2, none) => (st2, .loaded name)
    | (st2, some e) => (st2, .err e)

/-- Response of the /load_from_path endpoint. missingPath is the explicit
400 branch of run.py line 137; loadFailed is the 400 produced by the
except clause; crash is an exception escaping the handler itself, which
the framework turns into a 500 Internal Server Error page with no JSON
error field. -/
inductive LoadPathResp
  | loaded (model path : String)
  | missingPath
  | loadFailed (e : PyExn)
  | crash (e : PyExn)
deriving DecidableEq

/-- HTTP status of a /load_from_path response. -/
def LoadPathResp.status : LoadPathResp → Nat
  | .loaded _ _ => 200
  | .missingPath => 400
  | .loadFailed _ => 400
  | .crash _ => 500

/-- Whether a /load_from_path response is a JSON body with an error
field (the framework page for an uncaught exception is HTML, not JSON). -/
def LoadPathResp.hasJsonErrorField : LoadPathResp → Bool
  | .loaded _ _ => false
  | .missingPath => true
  | .loadFailed _ => true
  | .crash _ => false

/-- Embeds the load_from_path handler (run.py lines 130-148). The line
model_name = data.get("name", os.path.basename(model_path)) evaluates its
default argument eagerly, before the get call and before the missing-path
check below it: when the body has no path field, model_path is None and
os.path.basename(None) raises TypeError outside any try block, so the
handler crashes and the explicit 400 missing-path branch is unreachable.
When path is present, name defaults to its basename; the Python falsiness
check if not model_path then rejects an empty path string with 400. -/
def load_from_path (engine : Engine) (MODEL_DIR : String) (fs : FS)
    (st : ServerState) (path : Option String) (name : Option String) :
    ServerState × LoadPathResp :=
  match path with
  | none => (st, .crash .typeError)
  | some p =>
    let model_name := name.getD (basename p)
    if p == "" then (st, .missingPath)
    else
      match load_model engine MODEL_DIR fs model_name (some p) st with
      | (st2, none) => (st2, .loaded model_name p)
      | (st2, some e) => (st2, .loadFailed e)

/-- Response of the /generate endpoint: 400 with a JSON error body, or
the generated image served from the named file. -/
inductive GenResp
  | err (msg : String)
  | fileResp (path : String)
deriving DecidableEq

/-- Image generation by the loaded pipeline: from a handle and a prompt
to the encoded image bytes (the normalisation of the polymorphic engine
return into a PIL image is folded into this function; it ends in the
same bytes that image.save writes). -/
abbrev GenEngine := Nat → String → List Nat

/-- Embeds the generate handler (run.py lines 150-183). The no-model
check on pipe comes first; then a missing or empty prompt (Python
falsiness of the empty string) gives the 400 prompt error; otherwise the
image is computed and saved to the scratch file output.png in the working
directory before being served back. -/
def generate (gen : GenEngine) (st : ServerState) (prompt : Option String)
    (fs : FS) : FS × GenResp :=
  match st.pipe with
  | none => (fs, .err "No model loaded")
  | some h =>
    let p := prompt.getD ""
    if p == "" then (fs, .err "No prompt provided")
    else
      let image := gen h p
      (fs.write "output.png" image, .fileResp "output.png")

/-- One atomic mutation of the globals, as executed with the interpreter
lock held: the three assignment statements at run.py lines 60-66 are three
separate such actions, with no lock of the application serialising them
against another request running the same code. -/
inductive GAction
  | setPipe (h : Nat)
  | setModel (n : String)
  | setPath (p : String)
deriving DecidableEq

/-- Effect of one assignment on the globals. -/
def applyG (st : ServerState) : GAction → ServerState
  | .setPipe h => ⟨some h, st.current_model, st.current_model_path⟩
  | .setModel n => ⟨st.pipe, some n, st.current_model_path⟩
  | .setPath p => ⟨st.pipe, st.current_model, some p⟩

/-- Running a sequence of assignments. -/
def runG (st : ServerState) (l : List GAction) : ServerState :=
  l.foldl applyG st

/-- The assignment suffix of a successful load_model call that obtained
handle h for name and resolved path (run.py lines 60-66). -/
def loadAssignSeq (h : Nat) (name path : String) : List GAction :=
  [.setPipe h, .setModel name, .setPath path]

/-- zs is an interleaving of xs and ys: the order within each thread is
kept, and every step of zs belongs to exactly one of the two. -/
inductive Merge : List GAction → List GAction → List GAction → Prop
  | nil : Merge [] [] []
  | left {a : GAction} {xs ys zs : List GAction} :
      Merge xs ys zs → Merge (a :: xs) ys (a :: zs)
  | right {a : GAction} {xs ys zs : List GAction} :
      Merge xs ys zs → Merge xs (a :: ys) (a :: zs)

/-- A concrete two-model registry for the concurrency scenario: models
a.safetensors and b.safetensors present in directory /m. -/
def fsAB : FS :=
  ⟨[("/m/a.safetensors", [0]), ("/m/b.safetensors", [1])]⟩

/-- A concrete engine for the concurrency scenario: handle 1 for model a,
handle 2 for model b, rejection elsewhere. -/
def engineAB : Engine := fun p =>
  if p == "/m/a.safetensors" then .ok 1
  else if p == "/m/b.safetensors" then .ok 2
  else .error ()

/-- Helper: whenever load_model raises (its exception component is some
exception), the globals are returned unchanged, because the three
assignments sit after the engine call in the source. -/
theorem load_model_error_state (engine : Engine) (MODEL_DIR : String)
    (fs : FS) (name : String) (mp : Option String) (st : ServerState)
    (e : PyExn)
    (h : (load_model engine MODEL_DIR fs name mp st).2 = some e) :
    (load_model engine MODEL_DIR fs name mp st).1 = st := by
  revert h
  unfold load_model
  dsimp only
  split
  · intro _; rfl
  · split
    · intro _; rfl
    · intro h; exact absurd h (by simp)

/-- Helper: a successful download leaves the target path present. -/
theorem download_ok_exists (network : Network) (url filename dir MD : String)
    (fs : FS) (p : String)
    (h : (download_model network url filename (some dir) MD fs).result
      = .ok p) :
    p = pathJoin dir filename ∧
    (download_model network url filename (some dir) MD fs).fs.existsPath
      (pathJoin dir filename) = true := by
  revert h
  unfold download_model
  dsimp only [Option.getD]
  split
  · intro h
    refine ⟨by simpa using h.symm, by assumption⟩
  · split
    · intro h; exact absurd h (by simp)
    · split
      · intro h
        refine ⟨by simpa using h.symm, ?_⟩
        simp [FS.existsPath, FS.write, List.lookup]
      · intro h; exact absurd h (by simp)

/-- C3: when a file already exists at targetDirectory/filename, the
fetch makes no network request, changes nothing on disk, and returns the
existing path at once; and after any successful fetch, a second fetch of
the same filename returns the same path with no request and no overwrite
of the file. -/
theorem C3_fetch_idempotent (network : Network) (url filename dir MD : String)
    (fs : FS) :
    (fs.existsPath (pathJoin dir filename) = true →
      download_model network url filename (some dir) MD fs
        = ⟨fs, .ok (pathJoin dir filename), false⟩) ∧
    (∀ p, (download_model network url filename (some dir) MD fs).result
        = .ok p →
      download_model network url filename (some dir) MD
          (download_model network url filename (some dir) MD fs).fs
        = ⟨(download_model network url filename (some dir) MD fs).fs,
            .ok p, false⟩) := by
  have base : ∀ g : FS, g.existsPath (pathJoin dir filename) = true →
      download_model network url filename (some dir) MD g
        = ⟨g, .ok (pathJoin dir filename), false⟩ := by
    intro g hg
    unfold download_model
    simp [hg]
  refine ⟨base fs, ?_⟩
  intro p hp
  obtain ⟨hre, hex⟩ := download_ok_exists network url filename dir MD fs p hp
  subst hre
  exact base _ hex

/-- C3 witness: exercised at concrete inputs: a file already on disk is
returned with no request and no filesystem change; and after a fresh
one-chunk download, the repeated fetch is a no-op returning the same
path. -/
theorem C3_fetch_idempotent_witness :
    ((⟨[("d/a.bin", [7])]⟩ : FS).existsPath (pathJoin "d" "a.bin") = true ∧
      download_model (fun _ => .ok [.ok 1]) "u" "a.bin" (some "d") "m"
          ⟨[("d/a.bin", [7])]⟩
        = ⟨⟨[("d/a.bin", [7])]⟩, .ok (pathJoin "d" "a.bin"), false⟩) ∧
    ((download_model (fun _ => .ok [.ok 1]) "u" "a.bin" (some "d") "m"
        ⟨[]⟩).result = .ok "d/a.bin" ∧
      download_model (fun _ => .ok [.ok 1]) "u" "a.bin" (some "d") "m"
          (download_model (fun _ => .ok [.ok 1]) "u" "a.bin" (some "d") "m"
            ⟨[]⟩).fs
        = ⟨(download_model (fun _ => .ok [.ok 1]) "u" "a.bin" (some "d") "m"
            ⟨[]⟩).fs, .ok "d/a.bin", false⟩) := by
  refine ⟨⟨by decide,
    (C3_fetch_idempotent (fun _ => .ok [.ok 1]) "u" "a.bin" "d" "m"
      ⟨[("d/a.bin", [7])]⟩).1 (by decide)⟩,
    by decide,
    (C3_fetch_idempotent (fun _ => .ok [.ok 1]) "u" "a.bin" "d" "m"
      ⟨[]⟩).2 "d/a.bin" (by decide)⟩

/-- C4: evaluation of the code at a failing fetch. The target is absent,
the network delivers one chunk and then fails mid-stream: download_model
propagates the failure, yet the target path now holds the partial
content, because the code opens the final path directly and never uses a
temporary name with a rename, contradicting the claimed atomic publish. -/
theorem C4_partial_file_left_on_failure :
    (FS.existsPath ⟨[]⟩ "/d/a.bin" = false) ∧
    (download_model (fun _ => .ok [.ok 1, .error ()]) "http://x/a.bin"
      "a.bin" (some "/d") "/m" ⟨[]⟩).result = .error () ∧
    (download_model (fun _ => .ok [.ok 1, .error ()]) "http://x/a.bin"
      "a.bin" (some "/d") "/m" ⟨[]⟩).fs.existsPath "/d/a.bin" = true ∧
    (download_model (fun _ => .ok [.ok 1, .error ()]) "http://x/a.bin"
      "a.bin" (some "/d") "/m" ⟨[]⟩).fs.read "/d/a.bin" = some [1] := by
  decide

/-- C9: selecting any name whose file is absent from the model directory
fails with the FileNotFoundError message (the ModelNotFoundError of the
spec, served as the 400 error body) and leaves the globals exactly as
they were, so the pipeline does not transition to ready. -/
theorem C9_select_model_not_found (engine : Engine) (MODEL_DIR : String)
    (fs : FS) (st : ServerState) (name : String)
    (h : fs.existsPath (pathJoin MODEL_DIR name) = false) :
    select engine MODEL_DIR fs st (some name)
      = (st, .err (.fileNotFound
          ("Model " ++ name ++ " not found in " ++ MODEL_DIR ++ "."))) := by
  unfold select load_model
  simp [h]

/-- C9 witness: selecting x.safetensors against an empty directory. -/
theorem C9_select_model_not_found_witness :
    ((⟨[]⟩ : FS).existsPath (pathJoin "/m" "x.safetensors") = false) ∧
    select (fun _ => .ok 0) "/m" ⟨[]⟩ ⟨none, none, none⟩
        (some "x.safetensors")
      = (⟨none, none, none⟩, .err (.fileNotFound
          ("Model " ++ "x.safetensors" ++ " not found in " ++ "/m" ++ "."))) :=
  ⟨by decide,
    C9_select_model_not_found (fun _ => .ok 0) "/m" ⟨[]⟩ ⟨none, none, none⟩
      "x.safetensors" (by decide)⟩

/-- C10: when the engine constructor raises during load_model, each of
the three globals (pipe, current_model, current_model_path) keeps exactly
its pre-call value, because the assignments come only after the
constructor returns; in particular a previously held handle is still
there. -/
theorem C10_failed_load_preserves_globals (engine : Engine)
    (MODEL_DIR : String) (fs : FS) (name : String) (mp : Option String)
    (st : ServerState)
    (h : (load_model engine MODEL_DIR fs name mp st).2
      = some PyExn.engineError) :
    (load_model engine MODEL_DIR fs name mp st).1.pipe = st.pipe ∧
    (load_model engine MODEL_DIR fs name mp st).1.current_model
      = st.current_model ∧
    (load_model engine MODEL_DIR fs name mp st).1.current_model_path
      = st.current_model_path ∧
    (∀ hdl, st.pipe = some hdl →
      (load_model engine MODEL_DIR fs name mp st).1.pipe = some hdl) := by
  have hst := load_model_error_state engine MODEL_DIR fs name mp st _ h
  rw [hst]
  exact ⟨rfl, rfl, rfl, fun _ hh => hh⟩

/-- C10 witness: a ready pipeline (handle 7 for model a) survives a
failed load of the present model b whose artifact the engine rejects. -/
theorem C10_failed_load_preserves_globals_witness :
    ((load_model (fun _ => .error ()) "/m" ⟨[("/m/b.safetensors", [0])]⟩
        "b.safetensors" none
        ⟨some 7, some "a.safetensors", some "/m/a.safetensors"⟩).2
      = some PyExn.engineError) ∧
    (load_model (fun _ => .error ()) "/m" ⟨[("/m/b.safetensors", [0])]⟩
        "b.safetensors" none
        ⟨some 7, some "a.safetensors", some "/m/a.safetensors"⟩).1.pipe
      = some 7 :=
  ⟨by decide,
    (C10_failed_load_preserves_globals (fun _ => .error ()) "/m"
      ⟨[("/m/b.safetensors", [0])]⟩ "b.safetensors" none
      ⟨some 7, some "a.safetensors", some "/m/a.safetensors"⟩
      (by decide)).2.2.2 7 rfl⟩

/-- C2 counterexample: the pipeline is ready with handle 7 for model a;
selecting the present model b, whose artifact the engine rejects, yields
the 400 error response, yet afterwards pipe is still some 7 — the phase
did not revert to unloaded and the previous handle was never released
before the load, contrary to the claim. -/
theorem C2_counterexample :
    select (fun _ => .error ()) "/m" ⟨[("/m/b.safetensors", [0])]⟩
        ⟨some 7, some "a.safetensors", some "/m/a.safetensors"⟩
        (some "b.safetensors")
      = (⟨some 7, some "a.safetensors", some "/m/a.safetensors"⟩,
          .err .engineError) ∧
    (select (fun _ => .error ()) "/m" ⟨[("/m/b.safetensors", [0])]⟩
        ⟨some 7, some "a.safetensors", some "/m/a.safetensors"⟩
        (some "b.safetensors")).1.pipe = some 7 ∧
    (select (fun _ => .error ()) "/m" ⟨[("/m/b.safetensors", [0])]⟩
        ⟨some 7, some "a.safetensors", some "/m/a.safetensors"⟩
        (some "b.safetensors")).1.pipe ≠ none := by
  decide

/-- C2 amended: when the engine rejects the artifact, both handlers —
select resolving the name in the directory, and load_from_path given a
non-empty existing path — answer with their 400 engine-error response
and the globals retain their pre-call values entirely: a previously
ready pipeline keeps its old handle (nothing is released before the
load), and a previously unloaded one stays unloaded. -/
theorem C2_engine_rejection_state_retained (engine : Engine)
    (MODEL_DIR : String) (fs : FS) (st : ServerState) (name p : String)
    (nm : Option String) :
    (fs.existsPath (pathJoin MODEL_DIR name) = true →
      engine (pathJoin MODEL_DIR name) = .error () →
      select engine MODEL_DIR fs st (some name)
        = (st, .err .engineError)) ∧
    ((p == "") = false → fs.existsPath p = true →
      engine p = .error () →
      load_from_path engine MODEL_DIR fs st (some p) nm
        = (st, .loadFailed .engineError)) := by
  constructor
  · intro hex herr
    unfold select load_model
    simp [hex, herr]
  · intro hpne hpx herr
    unfold load_from_path load_model
    simp [hpne, hpx, herr]

/-- C2 witness: concrete engine rejections with the artifact present:
select of model b from the unloaded state, and load_from_path of an
existing custom path from a ready state holding handle 7, which it
keeps. -/
theorem C2_engine_rejection_state_retained_witness :
    ((⟨[("/m/b.safetensors", [0])]⟩ : FS).existsPath
        (pathJoin "/m" "b.safetensors") = true) ∧
    select (fun _ => .error ()) "/m" ⟨[("/m/b.safetensors", [0])]⟩
        ⟨none, none, none⟩ (some "b.safetensors")
      = (⟨none, none, none⟩, .err .engineError) ∧
    (("/q/c.safetensors" == "") = false) ∧
    ((⟨[("/q/c.safetensors", [0])]⟩ : FS).existsPath
        "/q/c.safetensors" = true) ∧
    load_from_path (fun _ => .error ()) "/m" ⟨[("/q/c.safetensors", [0])]⟩
        ⟨some 7, some "a.safetensors", some "/m/a.safetensors"⟩
        (some "/q/c.safetensors") none
      = (⟨some 7, some "a.safetensors", some "/m/a.safetensors"⟩,
          .loadFailed .engineError) :=
  ⟨by decide,
    (C2_engine_rejection_state_retained (fun _ => .error ()) "/m"
      ⟨[("/m/b.safetensors", [0])]⟩ ⟨none, none, none⟩ "b.safetensors"
      "/q/c.safetensors" none).1 (by decide) rfl,
    by decide, by decide,
    (C2_engine_rejection_state_retained (fun _ => .error ()) "/m"
      ⟨[("/q/c.safetensors", [0])]⟩
      ⟨some 7, some "a.safetensors", some "/m/a.safetensors"⟩
      "b.safetensors" "/q/c.safetensors" none).2 (by decide) (by decide)
      rfl⟩

/-- C5 counterexample: with no model loaded and an empty prompt, the
handler answers with the no-model error, not the empty-prompt error: the
empty-prompt failure is not independent of the pipeline phase, because
the pipe-is-None check runs first. -/
theorem C5_counterexample :
    (generate (fun _ _ => [0]) ⟨none, none, none⟩ (some "") ⟨[]⟩).2
      = .err "No model loaded" ∧
    (generate (fun _ _ => [0]) ⟨none, none, none⟩ (some "") ⟨[]⟩).2
      ≠ .err "No prompt provided" := by
  decide

/-- C5 amended: the no-model check precedes the prompt check: with pipe
absent, generate fails with the no-model error regardless of the prompt;
only with a model loaded does a missing or empty prompt fail with the
empty-prompt error. Neither error path touches the filesystem. -/
theorem C5_empty_prompt_after_model_check (gen : GenEngine)
    (st : ServerState) (prompt : Option String) (fs : FS) :
    (st.pipe = none →
      generate gen st prompt fs = (fs, .err "No model loaded")) ∧
    (prompt.getD "" = "" → ∀ h, st.pipe = some h →
      generate gen st prompt fs = (fs, .err "No prompt provided")) := by
  constructor
  · intro hn
    unfold generate
    rw [hn]
  · intro hemp h hp
    unfold generate
    rw [hp]
    simp [hemp]

/-- C5 witness: empty prompt against the unloaded state and against a
loaded state with handle 3. -/
theorem C5_empty_prompt_after_model_check_witness :
    ((some "" : Option String).getD "" = "") ∧
    generate (fun _ _ => [0]) ⟨none, none, none⟩ (some "") ⟨[]⟩
      = (⟨[]⟩, .err "No model loaded") ∧
    generate (fun _ _ => [0]) ⟨some 3, none, none⟩ (some "") ⟨[]⟩
      = (⟨[]⟩, .err "No prompt provided") :=
  ⟨rfl,
    (C5_empty_prompt_after_model_check (fun _ _ => [0]) ⟨none, none, none⟩
      (some "") ⟨[]⟩).1 rfl,
    (C5_empty_prompt_after_model_check (fun _ _ => [0]) ⟨some 3, none, none⟩
      (some "") ⟨[]⟩).2 rfl 3 rfl⟩

/-- C6: evaluation of the code at the failing input. A /load_from_path
body without a path field (with or without a name field) makes the
handler evaluate os.path.basename(None) as the eagerly computed default
of data.get, raising TypeError before the explicit 400 missing-path
branch can run: the response is the framework 500 page with no JSON
error field, not the claimed 400 with an error field. -/
theorem C6_missing_path_crashes :
    (load_from_path (fun _ => .ok 0) "/m" ⟨[]⟩ ⟨none, none, none⟩
      none none).2 = .crash .typeError ∧
    (load_from_path (fun _ => .ok 0) "/m" ⟨[]⟩ ⟨none, none, none⟩
      none (some "x")).2 = .crash .typeError ∧
    (load_from_path (fun _ => .ok 0) "/m" ⟨[]⟩ ⟨none, none, none⟩
      none none).2.status = 500 ∧
    (load_from_path (fun _ => .ok 0) "/m" ⟨[]⟩ ⟨none, none, none⟩
      none none).2.hasJsonErrorField = false := by
  decide

/-- C7: evaluation of the code at a successful generate. Starting from a
filesystem without output.png, a successful generate writes the encoded
image to the scratch file output.png before serving it: the filesystem is
changed, contrary to the claim that nothing is persisted. -/
theorem C7_generate_writes_scratch_file :
    (FS.existsPath ⟨[]⟩ "output.png" = false) ∧
    (generate (fun _ _ => [9, 9]) ⟨some 5, some "a.safetensors",
        some "/m/a.safetensors"⟩ (some "cat") ⟨[]⟩).2
      = .fileResp "output.png" ∧
    (generate (fun _ _ => [9, 9]) ⟨some 5, some "a.safetensors",
        some "/m/a.safetensors"⟩ (some "cat") ⟨[]⟩).1.existsPath
      "output.png" = true ∧
    (generate (fun _ _ => [9, 9]) ⟨some 5, some "a.safetensors",
        some "/m/a.safetensors"⟩ (some "cat") ⟨[]⟩).1 ≠ (⟨[]⟩ : FS) := by
  decide

/-- C8 counterexample: a directory listed in the order b.safetensors,
a.safetensors is returned in that same order by list_models, not as the
sorted set the claim states, because glob.glob does not sort. -/
theorem C8_counterexample :
    list_models ["b.safetensors", "a.safetensors"]
      = ["b.safetensors", "a.safetensors"] ∧
    list_models ["b.safetensors", "a.safetensors"]
      ≠ ["a.safetensors", "b.safetensors"] := by
  decide

/-- C8 amended: list_models returns precisely the directory entries
matching the *.safetensors glob, in directory-listing order (a sublist of
the listing, hence unsorted when the listing is), and returns the empty
list, never an error, on an empty directory. -/
theorem C8_list_models_membership (dirEntries : List String) :
    (∀ x, x ∈ list_models dirEntries ↔
      x ∈ dirEntries ∧ globMatchesSafetensors x = true) ∧
    List.Sublist (list_models dirEntries) dirEntries ∧
    list_models [] = [] := by
  refine ⟨?_, List.filter_sublist dirEntries, rfl⟩
  intro x
  simp [list_models, List.mem_filter]

/-- C1: evaluation of the code at the failing interleaving. The
assignment suffix of a successful load_model is exactly the three global
assignments loadAssignSeq (first conjunct, for the two concrete loads of
models a and b). There is an interleaving of those two suffixes — thread
A assigns pipe, thread B then runs all three assignments, thread A then
assigns current_model and current_model_path — after which, with both
calls finished, pipe holds handle 2 (the engine handle of model b) while
the descriptor names model a: the handle is mismatched with the recorded
descriptor, and this state persists for every later observer, since no
lock serialises the two loads. -/
theorem C1_interleaved_loads_corrupt_state :
    (∀ st : ServerState,
      (load_model engineAB "/m" fsAB "a.safetensors"
          (some "/m/a.safetensors") st).1
        = runG st (loadAssignSeq 1 "a.safetensors" "/m/a.safetensors") ∧
      (load_model engineAB "/m" fsAB "b.safetensors"
          (some "/m/b.safetensors") st).1
        = runG st (loadAssignSeq 2 "b.safetensors" "/m/b.safetensors")) ∧
    ∃ zs, Merge (loadAssignSeq 1 "a.safetensors" "/m/a.safetensors")
        (loadAssignSeq 2 "b.safetensors" "/m/b.safetensors") zs ∧
      runG ⟨none, none, none⟩ zs
        = ⟨some 2, some "a.safetensors", some "/m/a.safetensors"⟩ ∧
      engineAB "/m/a.safetensors" ≠ .ok 2 := by
  refine ⟨fun st => ⟨rfl, rfl⟩,
    ⟨[.setPipe 1, .setPipe 2, .setModel "b.safetensors",
      .setPath "/m/b.safetensors", .setModel "a.safetensors",
      .setPath "/m/a.safetensors"], ?_, by decide, by decide⟩⟩
  exact .left (.right (.right (.right (.left (.left .nil)))))

end DesignMesh
